import Mathlib

/-!
Shallow embedding of the follow-up communication orchestration core of the
docflow-document-management repository (the `CommunicationCoordinator` class,
plus the urgency scorer of `smartMessaging.ts`).

Numbers are modelled as `ℚ`; timestamps as `Int` milliseconds since the epoch.
JS `Map`s / records are modelled as insertion-ordered association lists, and
the coordinator's three mutable maps as an explicit `CoordinatorState` that is
threaded through the operations.  The randomized `sendMessage` collaborator is
modelled as an oracle parameter `gateway : String → SendResponse`; the third
component of an orchestration result counts how many times it was invoked.
-/

namespace DocFlow

structure Customer where
  id : String
  deriving DecidableEq

structure CustomerDocument where
  id : String
  /-- `new Date(due_date).getTime()` in ms; `none` models a missing/empty due date. -/
  due_date : Option Int
  type : String
  reminder_count : Nat
  deriving DecidableEq

structure Thresholds where
  urgency : ℚ
  sentiment : ℚ
  engagement : ℚ
  deriving DecidableEq

structure ChannelConfig where
  type : String
  priority : Nat
  waitTime : ℚ
  templates : List String
  fallbackChannel : Option String
  thresholds : Thresholds
  deriving DecidableEq

structure ResponseMetrics where
  channel : String
  responseTime : ℚ
  sentiment : ℚ
  wasSuccessful : Bool
  engagementScore : ℚ
  followUpRequired : Bool
  deriving DecidableEq

structure EscalationContext where
  customer : Customer
  document : CustomerDocument
  attempts : Nat
  lastResponse : Option ResponseMetrics
  urgencyScore : ℚ
  engagementScore : ℚ
  /-- `Record<string, number>` snapshot, insertion-ordered. -/
  channelEffectiveness : List (String × ℚ)
  deriving DecidableEq

structure EscalationRule where
  condition : EscalationContext → Bool
  action : String
  priority : Nat
  cooldown : Option ℚ
  requiredApproval : Bool

structure AutoAdjustment where
  enabled : Bool
  factors : List String
  learningRate : ℚ
  deriving DecidableEq

structure CommunicationFlow where
  channels : List ChannelConfig
  maxAttempts : Nat
  escalationRules : List EscalationRule
  autoAdjustment : AutoAdjustment

structure SendResponse where
  success : Bool
  time : ℚ
  sentiment : ℚ
  deriving DecidableEq

/-- JS `record[k]` / `Map.get(k)` on an insertion-ordered association list. -/
def mapGet (k : String) : List (String × ℚ) → Option ℚ
  | [] => none
  | (k', v) :: rest => if k' = k then some v else mapGet k rest

/-- JS `Map.set(k, v)`: overwrite in place when the key exists, else append. -/
def mapSet (k : String) (v : ℚ) : List (String × ℚ) → List (String × ℚ)
  | [] => [(k, v)]
  | (k', v') :: rest => if k' = k then (k, v) :: rest else (k', v') :: mapSet k v rest

/-- JS `Set.add(x)`: no-op when present, else append (insertion order kept). -/
def setAdd (x : String) (s : List String) : List String :=
  if x ∈ s then s else s ++ [x]

/-- JS `x || d` on an optional number: a missing value and `0` are falsy. -/
def jsOr (x : Option ℚ) (d : ℚ) : ℚ :=
  match x with
  | some v => if v = 0 then d else v
  | none => d

/-- The three mutable maps of `CommunicationCoordinator`, keyed by customer id. -/
structure CoordinatorState where
  responseHistory : String → List ResponseMetrics
  channelEffectiveness : String → List (String × ℚ)
  escalationHistory : String → List String

def initialState : CoordinatorState where
  responseHistory := fun _ => []
  channelEffectiveness := fun _ => []
  escalationHistory := fun _ => []

def getCustomerHistory (st : CoordinatorState) (customerId : String) : List ResponseMetrics :=
  st.responseHistory customerId

def getChannelHistory (st : CoordinatorState) (customerId channelType : String) :
    List ResponseMetrics :=
  (st.responseHistory customerId).filter (fun m => m.channel = channelType)

def getChannelEffectiveness (st : CoordinatorState) (customerId : String) :
    List (String × ℚ) :=
  st.channelEffectiveness customerId

/-- The coordinator's own urgency scorer is a stub: `return 0.5;`. -/
def calculateUrgencyScore (_document : CustomerDocument) : ℚ := 1/2

/-- `calculateEngagementScore`: 0.5 on empty history, else the mean of the stored
`engagementScore` field over `history.slice(-5)`. -/
def calculateEngagementScore (_customer : Customer) (history : List ResponseMetrics) : ℚ :=
  if history = [] then 1/2
  else
    let recentHistory := history.drop (history.length - 5)
    (recentHistory.foldl (fun score metrics => score + metrics.engagementScore) 0) /
      recentHistory.length

def buildEscalationContext (st : CoordinatorState) (customer : Customer)
    (document : CustomerDocument) (history : List ResponseMetrics) : EscalationContext where
  customer := customer
  document := document
  attempts := history.length
  lastResponse := history.getLast?
  urgencyScore := calculateUrgencyScore document
  engagementScore := calculateEngagementScore customer history
  channelEffectiveness := getChannelEffectiveness st customer.id

def calculateChannelScore (st : CoordinatorState) (channel : ChannelConfig)
    (context : EscalationContext) : ℚ :=
  let urgencyPart : ℚ := if channel.thresholds.urgency ≤ context.urgencyScore then 3/10 else 0
  let sentimentPart : ℚ :=
    match context.lastResponse with
    | some r => if channel.thresholds.sentiment ≤ r.sentiment then 1/5 else 0
    | none => 0
  let engagementPart : ℚ :=
    if channel.thresholds.engagement ≤ context.engagementScore then 1/5 else 0
  let channelHistory := getChannelHistory st context.customer.id channel.type
  let historyPart : ℚ :=
    if channelHistory = [] then 0
    else ((channelHistory.filter (fun r => r.wasSuccessful)).length : ℚ) /
        (channelHistory.length : ℚ) * (3/10)
  urgencyPart + sentimentPart + engagementPart + historyPart

/-- First element of `best :: rest` attaining the maximal measure `f`.  This models
taking element 0 of a stable descending sort (JS `Array.prototype.sort` is stable,
so ties keep their original order and element 0 is the first maximum). -/
def pickFirst {α : Type} {β : Type} [LinearOrder β] (f : α → β) : α → List α → α
  | best, [] => best
  | best, x :: xs => pickFirst f (if f best < f x then x else best) xs

/-- `selectOptimalChannel`: score every channel (base score plus
`ctx.channelEffectiveness[channel.type] || 0`), sort descending, take element 0.
`none` only when the catalog is empty (where the TS crashes on `[0].channel`). -/
def selectOptimalChannel (st : CoordinatorState) (context : EscalationContext)
    (flow : CommunicationFlow) : Option ChannelConfig :=
  let scores := flow.channels.map (fun channel =>
    (channel, calculateChannelScore st channel context +
      jsOr (mapGet channel.type context.channelEffectiveness) 0))
  match scores with
  | [] => none
  | x :: xs => some (pickFirst Prod.snd x xs).1

/-- The rule the orchestrator fires: filter by condition, stable-sort ascending by
priority, take element 0 — i.e. the first-listed rule of minimal priority.  We use
`pickFirst` with the negated priority as measure: the first maximum of `-priority`
is exactly the first minimum of `priority`. -/
def firedRule (rules : List EscalationRule) (context : EscalationContext) :
    Option EscalationRule :=
  let applicableRules := rules.filter (fun r => r.condition context)
  match applicableRules with
  | [] => none
  | r :: rs => some (pickFirst (fun rule => -(rule.priority : ℤ)) r rs)

/-- The action tags `handleEscalation` recognizes in its `switch`. -/
def knownActionTags : List String :=
  ["escalate_to_manager", "human_intervention", "urgent_escalation", "switch_channel"]

/-- The status string of the handler `handleEscalation`'s `switch` dispatches to;
every unknown tag falls into the `default:` branch. -/
def escalationStatus (action : String) : String :=
  if action = "escalate_to_manager" then "escalated_to_manager"
  else if action = "human_intervention" then "human_intervention_required"
  else if action = "urgent_escalation" then "urgent_escalation"
  else if action = "switch_channel" then "channel_switch_required"
  else "default_escalation"

inductive OrchestrationResult where
  | escalated (activeEscalations : List String)
  | escalationAction (status : String) (context : EscalationContext)
  | delivery (response : SendResponse)
  deriving DecidableEq

def handleEscalation (st : CoordinatorState) (now : Int) (rule : EscalationRule)
    (customer : Customer) (context : EscalationContext) :
    OrchestrationResult × CoordinatorState :=
  let escalationId := rule.action ++ "_" ++ toString now
  let customerEscalations := setAdd escalationId (st.escalationHistory customer.id)
  let st' : CoordinatorState :=
    { st with escalationHistory := fun cid =>
        if cid = customer.id then customerEscalations else st.escalationHistory cid }
  (.escalationAction (escalationStatus rule.action) context, st')

def trackResponse (st : CoordinatorState) (customerId : String)
    (metrics : ResponseMetrics) : CoordinatorState :=
  { st with responseHistory := fun cid =>
      if cid = customerId then st.responseHistory customerId ++ [metrics]
      else st.responseHistory cid }

def updateChannelEffectiveness (st : CoordinatorState) (customerId channelType : String)
    (adjustment : ℚ) : CoordinatorState :=
  let customerEffectiveness := st.channelEffectiveness customerId
  let currentEffectiveness := jsOr (mapGet channelType customerEffectiveness) (1/2)
  let updated := mapSet channelType
    (max 0 (min 1 (currentEffectiveness + adjustment))) customerEffectiveness
  { st with channelEffectiveness := fun cid =>
      if cid = customerId then updated else st.channelEffectiveness cid }

/-- `determineNextChannel`, catalog-order part: `findIndex` (−1 when absent) plus one,
then `flow.channels[i] || flow.channels[0]`. -/
def nextByOrder (flow : CommunicationFlow) (currentChannel : ChannelConfig) :
    Option ChannelConfig :=
  let found : Int :=
    match flow.channels.findIdx? (fun c => c.type = currentChannel.type) with
    | some i => (i : Int)
    | none => -1
  let nextChannelIndex := found + 1
  match flow.channels.get? nextChannelIndex.toNat with
  | some c => some c
  | none => flow.channels.head?

def determineNextChannel (flow : CommunicationFlow) (currentChannel : ChannelConfig) :
    Option ChannelConfig :=
  match currentChannel.fallbackChannel with
  | some fb =>
    match flow.channels.find? (fun c => c.type = fb) with
    | some fallbackConfig => some fallbackConfig
    | none => nextByOrder flow currentChannel
  | none => nextByOrder flow currentChannel

def calculateWaitTime (channel : ChannelConfig) (_customer : Customer)
    (context : EscalationContext) : ℚ :=
  let baseWaitTime := channel.waitTime
  let urgencyFactor := max 0 (1 - context.urgencyScore)
  let engagementFactor := max (1/2) context.engagementScore
  max (baseWaitTime * urgencyFactor * engagementFactor) (baseWaitTime * (1/4))

/-- `executeChannelStrategy`.  The result triple is (returned value, new coordinator
state, number of `sendMessage` invocations).  `generateMessage`, `scheduleFollowUp`
and `adjustFlow` neither touch the coordinator's maps nor influence the returned
value (the follow-up record and adjusted flow are discarded by the source), so they
do not appear in the state. -/
def executeChannelStrategy (st : CoordinatorState) (gateway : String → SendResponse)
    (now : Int) (customer : Customer) (_document : CustomerDocument)
    (channel : ChannelConfig) (flow : CommunicationFlow) (context : EscalationContext) :
    OrchestrationResult × CoordinatorState × Nat :=
  let activeEscalations := st.escalationHistory customer.id
  if activeEscalations = [] then
    match firedRule flow.escalationRules context with
    | some rule =>
      let handled := handleEscalation st now rule customer context
      (handled.1, handled.2, 0)
    | none =>
      let response := gateway channel.type
      let st1 := trackResponse st customer.id
        { channel := channel.type
          responseTime := response.time
          sentiment := response.sentiment
          wasSuccessful := response.success
          engagementScore := context.engagementScore
          followUpRequired := !response.success }
      let st2 := updateChannelEffectiveness st1 customer.id channel.type
        (if response.success then 1/10 else -(1/10))
      (.delivery response, st2, 1)
  else
    (.escalated activeEscalations, st, 0)

/-- `initiateFlow`.  An unknown flow type throws (`Except.error`); an empty channel
catalog makes the TS crash with a `TypeError` on `[0].channel`, also an error here. -/
def initiateFlow (st : CoordinatorState) (gateway : String → SendResponse) (now : Int)
    (flows : List (String × CommunicationFlow)) (customer : Customer)
    (document : CustomerDocument) (flowType : String) :
    Except String (OrchestrationResult × CoordinatorState × Nat) :=
  match flows.find? (fun p => p.1 = flowType) with
  | none => .error ("Flow type " ++ flowType ++ " not found")
  | some (_, flow) =>
    let customerHistory := getCustomerHistory st customer.id
    let context := buildEscalationContext st customer document customerHistory
    match selectOptimalChannel st context flow with
    | none => .error "TypeError: no channels configured"
    | some initialChannel =>
      .ok (executeChannelStrategy st gateway now customer document initialChannel flow context)

/-! ## The built-in `default` flow configuration -/

def emailChannel : ChannelConfig :=
  { type := "email", priority := 1, waitTime := 48,
    templates := ["friendly_reminder", "follow_up"], fallbackChannel := none,
    thresholds := { urgency := 1/2, sentiment := 3/10, engagement := 2/5 } }

def whatsappChannel : ChannelConfig :=
  { type := "whatsapp", priority := 2, waitTime := 24,
    templates := ["urgent_reminder", "quick_check"], fallbackChannel := some "sms",
    thresholds := { urgency := 7/10, sentiment := 1/5, engagement := 3/5 } }

def phoneChannel : ChannelConfig :=
  { type := "phone", priority := 3, waitTime := 12,
    templates := ["final_notice"], fallbackChannel := none,
    thresholds := { urgency := 9/10, sentiment := 1/10, engagement := 4/5 } }

def smsChannel : ChannelConfig :=
  { type := "sms", priority := 2, waitTime := 24,
    templates := ["brief_reminder"], fallbackChannel := none,
    thresholds := { urgency := 3/5, sentiment := 3/10, engagement := 1/2 } }

def portalChannel : ChannelConfig :=
  { type := "portal", priority := 1, waitTime := 72,
    templates := ["portal_notification"], fallbackChannel := none,
    thresholds := { urgency := 2/5, sentiment := 2/5, engagement := 3/10 } }

def defaultChannels : List ChannelConfig :=
  [emailChannel, whatsappChannel, phoneChannel, smsChannel, portalChannel]

/-- The five escalation rules of the `default` flow.  Rule conditions close over
`Date.now()`, passed here as `now`. -/
def defaultEscalationRules (now : Int) : List EscalationRule :=
  [ { condition := fun ctx => decide (2 ≤ ctx.attempts) && decide ((4/5 : ℚ) < ctx.urgencyScore),
      action := "escalate_to_manager", priority := 1, cooldown := none,
      requiredApproval := true },
    -- `ctx.sentiment < -0.5 && ctx.attempts > 1`: `EscalationContext` has no
    -- `sentiment` field, so the TS reads `undefined` and the comparison is
    -- always false, whatever `attempts` is.
    { condition := fun _ => false,
      action := "human_intervention", priority := 2, cooldown := some 24,
      requiredApproval := false },
    { condition := fun ctx =>
        match ctx.document.due_date with
        | some due => decide (due - now < 48 * 60 * 60 * 1000)
        | none => false,
      action := "urgent_escalation", priority := 3, cooldown := none,
      requiredApproval := false },
    { condition := fun ctx => decide (ctx.engagementScore < 3/10) && decide (3 < ctx.attempts),
      action := "switch_channel", priority := 4, cooldown := none,
      requiredApproval := false },
    -- `Math.max(...Object.values(ctx.channelEffectiveness)) < 0.4`: on an empty
    -- record the spread is empty and `Math.max()` is `-Infinity`, so the
    -- comparison holds vacuously.
    { condition := fun ctx =>
        match ctx.channelEffectiveness.map Prod.snd with
        | [] => true
        | v :: vs => decide (vs.foldl max v < 2/5),
      action := "try_alternative_channel", priority := 5, cooldown := none,
      requiredApproval := false } ]

def defaultFlow (now : Int) : CommunicationFlow where
  channels := defaultChannels
  maxAttempts := 5
  escalationRules := defaultEscalationRules now
  autoAdjustment :=
    { enabled := true, factors := ["response_time", "sentiment", "engagement"],
      learningRate := 1/10 }

/-- The coordinator's `flows` map, holding the single `default` entry. -/
def defaultFlows (now : Int) : List (String × CommunicationFlow) :=
  [("default", defaultFlow now)]

/-! ## The urgency scorer of `smartMessaging.ts` -/

namespace SmartMessaging

/-- `calculateUrgencyScore` of `smartMessaging.ts`: due-date proximity buckets plus a
type bonus plus a capped reminder bonus, the total capped at 100.
`daysUntilDue = Math.floor((due - now) / 86400000)` is floor division (`Int.fdiv`).
With a missing due date the TS computes `NaN` days and every `<` comparison is
false, landing in the final `else` bucket. -/
def calculateUrgencyScore (now : Int) (document : CustomerDocument) : ℚ :=
  let bucket : ℚ :=
    match document.due_date with
    | none => 20
    | some due =>
      let daysUntilDue : Int := (due - now).fdiv 86400000
      if daysUntilDue < 0 then 100
      else if daysUntilDue < 2 then 80
      else if daysUntilDue < 5 then 60
      else if daysUntilDue < 10 then 40
      else 20
  let withType := bucket + (if document.type = "Legal" then 20 else 0) +
    (if document.type = "Financial" then 15 else 0)
  let withReminders := withType +
    (if document.reminder_count ≠ 0 then min 20 ((document.reminder_count : ℚ) * 5) else 0)
  min 100 withReminders

end SmartMessaging

/-! ## Spec-side reference definitions (written from the spec's words, to be
compared with the definitions above, which are written from the source) -/

/-- Spec §4.1: `engagementScore = (response-rate over the last 5 attempts × 0.6) +
(average sentiment over the last 5 attempts × 0.4)`, 0.5 on empty history. -/
def specEngagementScore (history : List ResponseMetrics) : ℚ :=
  if history = [] then 1/2
  else
    let recent := history.drop (history.length - 5)
    let responseRate := ((recent.filter (fun r => r.wasSuccessful)).length : ℚ) /
      (recent.length : ℚ)
    let averageSentiment := ((recent.map (fun r => r.sentiment)).sum) / (recent.length : ℚ)
    responseRate * (3/5) + averageSentiment * (2/5)

/-- Spec §4.2's per-channel score with the §4.1 effectiveness bonus: the four base
components plus the stored effectiveness value, defaulting to 0.5 when absent. -/
def specChannelScore (st : CoordinatorState) (context : EscalationContext)
    (channel : ChannelConfig) : ℚ :=
  let urgencyPart : ℚ := if channel.thresholds.urgency ≤ context.urgencyScore then 3/10 else 0
  let sentimentPart : ℚ :=
    match context.lastResponse with
    | some r => if channel.thresholds.sentiment ≤ r.sentiment then 1/5 else 0
    | none => 0
  let engagementPart : ℚ :=
    if channel.thresholds.engagement ≤ context.engagementScore then 1/5 else 0
  let channelHistory := getChannelHistory st context.customer.id channel.type
  let successPart : ℚ :=
    if channelHistory = [] then 0
    else ((channelHistory.filter (fun r => r.wasSuccessful)).length : ℚ) /
        (channelHistory.length : ℚ) * (3/10)
  urgencyPart + sentimentPart + engagementPart + successPart +
    ((mapGet channel.type context.channelEffectiveness).getD (1/2))

/-- Spec §4.2's channel-selection contract, with the claim's 0.5 default: the first
catalog channel whose `specChannelScore` is maximal ("ties broken by catalog order"). -/
def specSelectOptimalChannel (st : CoordinatorState) (context : EscalationContext)
    (flow : CommunicationFlow) : Option ChannelConfig :=
  flow.channels.find? (fun c =>
    flow.channels.all (fun c' =>
      decide (specChannelScore st context c' ≤ specChannelScore st context c)))

/-- The code's channel score as a standalone measure: the base score plus the
stored effectiveness value, defaulting to 0 when absent (`x || 0` equals
`x.getD 0`, see `jsOr_zero`). -/
def codeChannelScore (st : CoordinatorState) (context : EscalationContext)
    (channel : ChannelConfig) : ℚ :=
  calculateChannelScore st channel context +
    (mapGet channel.type context.channelEffectiveness).getD 0

/-- First catalog channel whose code score is maximal — the claim's selection
contract amended to the code's 0-default. -/
def codeSelectSpec (st : CoordinatorState) (context : EscalationContext)
    (flow : CommunicationFlow) : Option ChannelConfig :=
  flow.channels.find? (fun c =>
    flow.channels.all (fun c' =>
      decide (codeChannelScore st context c' ≤ codeChannelScore st context c)))

/-- Spec §4.3: among the rules whose predicate holds, the first-listed one of
minimal priority number fires. -/
def specFiredRule (rules : List EscalationRule) (context : EscalationContext) :
    Option EscalationRule :=
  let matched := rules.filter (fun r => r.condition context)
  matched.find? (fun r => matched.all (fun r' => decide (r.priority ≤ r'.priority)))

/-! ## Helper lemmas: the first element of a stable sort is the first extremum -/

theorem find?_cons_eq_some {α : Type} (p : α → Bool) {x : α} (l : List α) (h : p x = true) :
    List.find? p (x :: l) = some x := by
  simp only [List.find?, h]

theorem find?_cons_eq_rest {α : Type} (p : α → Bool) {x : α} (l : List α) (h : p x = false) :
    List.find? p (x :: l) = List.find? p l := by
  simp only [List.find?, h]

theorem find?_congr {α : Type} {p q : α → Bool} (l : List α)
    (h : ∀ a ∈ l, p a = q a) : l.find? p = l.find? q := by
  induction l with
  | nil => rfl
  | cons x xs ih =>
    have hx := h x (List.mem_cons_self x xs)
    cases hq : q x with
    | true =>
      rw [find?_cons_eq_some p xs (hx.trans hq), find?_cons_eq_some q xs hq]
    | false =>
      rw [find?_cons_eq_rest p xs (hx.trans hq), find?_cons_eq_rest q xs hq]
      exact ih (fun a ha => h a (List.mem_cons_of_mem _ ha))

theorem all_congr' {α : Type} {p q : α → Bool} (l : List α)
    (h : ∀ a ∈ l, p a = q a) : l.all p = l.all q := by
  induction l with
  | nil => rfl
  | cons x xs ih =>
    rw [List.all_cons, List.all_cons, h x (List.mem_cons_self x xs),
      ih (fun a ha => h a (List.mem_cons_of_mem _ ha))]

/-- `pickFirst f x xs` is the first element of `x :: xs` whose measure is maximal:
the element `find?` locates with the predicate "`f` is at least every member's `f`". -/
theorem pickFirst_eq_find? {α β : Type} [LinearOrder β] (f : α → β) (x : α) (xs : List α) :
    (x :: xs).find? (fun a => (x :: xs).all (fun b => decide (f b ≤ f a))) =
      some (pickFirst f x xs) := by
  induction xs generalizing x with
  | nil =>
    rw [pickFirst]
    simp [List.find?]
  | cons y ys ih =>
    rw [pickFirst]
    by_cases hxy : f x < f y
    · rw [if_pos hxy]
      have hpx : ((x :: y :: ys).all (fun b => decide (f b ≤ f x))) = false := by
        cases hall : (x :: y :: ys).all (fun b => decide (f b ≤ f x)) with
        | false => rfl
        | true =>
          rw [List.all_eq_true] at hall
          have hy := hall y (by simp)
          simp only [decide_eq_true_eq] at hy
          exact absurd hy (not_le.mpr hxy)
      rw [find?_cons_eq_rest (fun a => (x :: y :: ys).all (fun b => decide (f b ≤ f a)))
        (y :: ys) hpx]
      have hcongr : ∀ a ∈ y :: ys,
          ((x :: y :: ys).all (fun b => decide (f b ≤ f a))) =
          ((y :: ys).all (fun b => decide (f b ≤ f a))) := by
        intro a _
        cases hsub : (y :: ys).all (fun b => decide (f b ≤ f a)) with
        | true =>
          rw [List.all_eq_true] at hsub ⊢
          intro b hb
          rcases List.mem_cons.mp hb with hb | hb
          · subst hb
            have hya := hsub y (List.mem_cons_self y ys)
            simp only [decide_eq_true_eq] at hya ⊢
            exact (le_of_lt hxy).trans hya
          · exact hsub b hb
        | false =>
          rw [List.all_cons, hsub, Bool.and_false]
      rw [find?_congr _ hcongr]
      exact ih y
    · rw [if_neg hxy]
      have hyx : f y ≤ f x := le_of_not_lt hxy
      have hmid := ih x
      by_cases hpx : ((x :: ys).all (fun b => decide (f b ≤ f x))) = true
      · have hpfull : ((x :: y :: ys).all (fun b => decide (f b ≤ f x))) = true := by
          rw [List.all_eq_true] at hpx ⊢
          intro b hb
          rcases List.mem_cons.mp hb with hb | hb
          · exact hpx b (hb ▸ List.mem_cons_self x ys)
          · rcases List.mem_cons.mp hb with hb' | hb'
            · subst hb'
              simpa using hyx
            · exact hpx b (List.mem_cons_of_mem _ hb')
        rw [find?_cons_eq_some (fun a => (x :: y :: ys).all (fun b => decide (f b ≤ f a)))
          (y :: ys) hpfull]
        rw [find?_cons_eq_some (fun a => (x :: ys).all (fun b => decide (f b ≤ f a)))
          ys hpx] at hmid
        exact hmid
      · have hpx' : ((x :: ys).all (fun b => decide (f b ≤ f x))) = false :=
          Bool.eq_false_iff.mpr hpx
        have hpfull : ((x :: y :: ys).all (fun b => decide (f b ≤ f x))) = false := by
          cases hall : (x :: y :: ys).all (fun b => decide (f b ≤ f x)) with
          | false => rfl
          | true =>
            rw [List.all_eq_true] at hall
            have : ((x :: ys).all (fun b => decide (f b ≤ f x))) = true := by
              rw [List.all_eq_true]
              intro b hb
              rcases List.mem_cons.mp hb with hb | hb
              · exact hall b (hb ▸ List.mem_cons_self x (y :: ys))
              · exact hall b (List.mem_cons_of_mem _ (List.mem_cons_of_mem _ hb))
            exact absurd this hpx
        have hpy : ((x :: y :: ys).all (fun b => decide (f b ≤ f y))) = false := by
          cases hall : (x :: y :: ys).all (fun b => decide (f b ≤ f y)) with
          | false => rfl
          | true =>
            rw [List.all_eq_true] at hall
            have hxley : f x ≤ f y := by
              have := hall x (List.mem_cons_self x (y :: ys))
              simpa using this
            have hxeqy : f x = f y := le_antisymm hxley hyx
            have : ((x :: ys).all (fun b => decide (f b ≤ f x))) = true := by
              rw [List.all_eq_true]
              intro b hb
              have hb' : b ∈ x :: y :: ys := by
                rcases List.mem_cons.mp hb with hb | hb
                · exact hb ▸ List.mem_cons_self x (y :: ys)
                · exact List.mem_cons_of_mem _ (List.mem_cons_of_mem _ hb)
              have := hall b hb'
              simp only [decide_eq_true_eq] at this ⊢
              exact this.trans (le_of_eq hxeqy.symm)
            exact absurd this hpx
        rw [find?_cons_eq_rest (fun a => (x :: y :: ys).all (fun b => decide (f b ≤ f a)))
          (y :: ys) hpfull]
        rw [find?_cons_eq_rest (fun a => (x :: y :: ys).all (fun b => decide (f b ≤ f a)))
          ys hpy]
        rw [find?_cons_eq_rest (fun a => (x :: ys).all (fun b => decide (f b ≤ f a)))
          ys hpx'] at hmid
        have hcongr : ∀ a ∈ ys,
            ((x :: y :: ys).all (fun b => decide (f b ≤ f a))) =
            ((x :: ys).all (fun b => decide (f b ≤ f a))) := by
          intro a _
          cases hsub : (x :: ys).all (fun b => decide (f b ≤ f a)) with
          | true =>
            rw [List.all_eq_true] at hsub ⊢
            intro b hb
            rcases List.mem_cons.mp hb with hb | hb
            · exact hsub b (hb ▸ List.mem_cons_self x ys)
            · rcases List.mem_cons.mp hb with hb' | hb'
              · subst hb'
                have hxa := hsub x (List.mem_cons_self x ys)
                simp only [decide_eq_true_eq] at hxa ⊢
                exact hyx.trans hxa
              · exact hsub b (List.mem_cons_of_mem _ hb')
          | false =>
            cases hall : (x :: y :: ys).all (fun b => decide (f b ≤ f a)) with
            | false => rfl
            | true =>
              rw [List.all_eq_true] at hall
              have : ((x :: ys).all (fun b => decide (f b ≤ f a))) = true := by
                rw [List.all_eq_true]
                intro b hb
                rcases List.mem_cons.mp hb with hb | hb
                · exact hall b (hb ▸ List.mem_cons_self x (y :: ys))
                · exact hall b (List.mem_cons_of_mem _ (List.mem_cons_of_mem _ hb))
              rw [this] at hsub
              exact absurd hsub (by simp)
        rw [find?_congr _ hcongr]
        exact hmid



theorem firedRule_eq_spec (rules : List EscalationRule) (context : EscalationContext) :
    firedRule rules context = specFiredRule rules context := by
  unfold firedRule specFiredRule
  cases hm : rules.filter (fun r => r.condition context) with
  | nil => rfl
  | cons r rs =>
    show some (pickFirst (fun rule => -(rule.priority : ℤ)) r rs) =
      List.find? (fun r0 => (r :: rs).all fun r' => decide (r0.priority ≤ r'.priority)) (r :: rs)
    rw [← pickFirst_eq_find? (fun rule => -(rule.priority : ℤ)) r rs]
    apply find?_congr
    intro a _
    apply all_congr'
    intro b _
    apply decide_eq_decide.mpr
    omega

theorem all_map' {α β : Type} (f : α → β) (l : List α) (p : β → Bool) :
    (l.map f).all p = l.all (fun a => p (f a)) := by
  induction l with
  | nil => rfl
  | cons x xs ih => simp only [List.map_cons, List.all_cons, ih]

/-- The first pair (element, score) of maximal score, projected to the element, is the
first element of maximal score. -/
theorem pickFirst_fst_spec {α γ : Type} [LinearOrder γ] (score : α → γ) (c : α) (cs : List α) :
    some (pickFirst Prod.snd (c, score c) (cs.map (fun a => (a, score a)))).1 =
      List.find? (fun a => (c :: cs).all (fun b => decide (score b ≤ score a))) (c :: cs) := by
  have hpick : List.find?
      (fun p => ((c, score c) :: cs.map (fun a => (a, score a))).all
        (fun b => decide (Prod.snd b ≤ Prod.snd p)))
      ((c, score c) :: cs.map (fun a => (a, score a))) =
      some (pickFirst Prod.snd (c, score c) (cs.map (fun a => (a, score a)))) :=
    pickFirst_eq_find? Prod.snd _ _
  have hmap : List.find?
      (fun p => ((c, score c) :: cs.map (fun a => (a, score a))).all
        (fun b => decide (Prod.snd b ≤ Prod.snd p)))
      ((c, score c) :: cs.map (fun a => (a, score a))) =
      Option.map (fun a => (a, score a)) (List.find?
        (fun a => ((c, score c) :: cs.map (fun a => (a, score a))).all
          (fun b => decide (Prod.snd b ≤ score a)))
        (c :: cs)) :=
    List.find?_map (fun a => (a, score a)) (c :: cs)
  rw [hpick] at hmap
  have hcongr : List.find?
      (fun a => ((c, score c) :: cs.map (fun a => (a, score a))).all
        (fun b => decide (Prod.snd b ≤ score a)))
      (c :: cs) =
      List.find? (fun a => (c :: cs).all (fun b => decide (score b ≤ score a))) (c :: cs) := by
    apply find?_congr
    intro a _
    show (List.map (fun a => (a, score a)) (c :: cs)).all
        (fun b => decide (Prod.snd b ≤ score a)) = _
    rw [all_map' (fun a => (a, score a)) (c :: cs)]
  rw [hcongr] at hmap
  cases hfind : List.find? (fun a => (c :: cs).all (fun b => decide (score b ≤ score a)))
      (c :: cs) with
  | none =>
    rw [hfind] at hmap
    simp at hmap
  | some ch =>
    rw [hfind] at hmap
    have h2 : pickFirst Prod.snd (c, score c) (cs.map (fun a => (a, score a))) =
        (ch, score ch) := by
      simpa using hmap
    rw [h2]

theorem jsOr_zero (x : Option ℚ) : jsOr x 0 = x.getD 0 := by
  cases x with
  | none => rfl
  | some v => by_cases h : v = 0 <;> simp [jsOr, h]

theorem selectOptimalChannel_eq_spec (st : CoordinatorState) (context : EscalationContext)
    (flow : CommunicationFlow) :
    selectOptimalChannel st context flow = codeSelectSpec st context flow := by
  unfold selectOptimalChannel codeSelectSpec
  cases hch : flow.channels with
  | nil => rfl
  | cons c cs =>
    have h1 := pickFirst_fst_spec
      (fun channel => calculateChannelScore st channel context +
        jsOr (mapGet channel.type context.channelEffectiveness) 0) c cs
    refine h1.trans ?_
    apply find?_congr
    intro a _
    apply all_congr'
    intro b _
    apply decide_eq_decide.mpr
    rw [show codeChannelScore st context b = calculateChannelScore st b context +
        jsOr (mapGet b.type context.channelEffectiveness) 0 from by
      rw [codeChannelScore, jsOr_zero]]
    rw [show codeChannelScore st context a = calculateChannelScore st a context +
        jsOr (mapGet a.type context.channelEffectiveness) 0 from by
      rw [codeChannelScore, jsOr_zero]]



theorem mapGet_mapSet_self (k : String) (v : ℚ) (l : List (String × ℚ)) :
    mapGet k (mapSet k v l) = some v := by
  induction l with
  | nil => simp [mapGet, mapSet]
  | cons p rest ih =>
    by_cases h : p.1 = k
    · simp [mapGet, mapSet, h]
    · simp [mapGet, mapSet, h, ih]

theorem mapGet_mapSet_other {k' k : String} (h : k' ≠ k) (v : ℚ) (l : List (String × ℚ)) :
    mapGet k' (mapSet k v l) = mapGet k' l := by
  have hne : ¬ k = k' := fun hh => h hh.symm
  induction l with
  | nil => simp [mapGet, mapSet, hne]
  | cons p rest ih =>
    by_cases hp : p.1 = k
    · simp [mapGet, mapSet, hp, hne]
    · simp [mapGet, mapSet, hp, ih]

/-- Every value stored in the effectiveness map lies in `[0, 1]`. -/
def effectivenessInv (st : CoordinatorState) : Prop :=
  ∀ cid ch v, mapGet ch (st.channelEffectiveness cid) = some v → 0 ≤ v ∧ v ≤ 1

theorem clamp_mem_unit (x : ℚ) : 0 ≤ max 0 (min 1 x) ∧ max 0 (min 1 x) ≤ 1 :=
  ⟨le_max_left 0 _, max_le (by norm_num) (min_le_left 1 x)⟩

theorem effectivenessInv_initial : effectivenessInv initialState := by
  intro cid ch v hv
  simp [initialState, mapGet] at hv

theorem effectivenessInv_update {st : CoordinatorState} (h : effectivenessInv st)
    (cid ch : String) (adj : ℚ) :
    effectivenessInv (updateChannelEffectiveness st cid ch adj) := by
  intro cid' ch' v hv
  unfold updateChannelEffectiveness at hv
  by_cases hc : cid' = cid
  · simp only [hc, if_true, eq_self_iff_true, if_pos] at hv
    by_cases hch : ch' = ch
    · rw [hch, mapGet_mapSet_self] at hv
      cases hv
      exact clamp_mem_unit _
    · rw [mapGet_mapSet_other hch] at hv
      exact h cid ch' v hv
  · simp only [if_neg hc] at hv
    exact h cid' ch' v hv

/-- One orchestration invocation's inputs (the delivery oracle included). -/
structure StepInput where
  gateway : String → SendResponse
  now : Int
  customer : Customer
  document : CustomerDocument
  channel : ChannelConfig
  flow : CommunicationFlow
  context : EscalationContext

/-- The state after one `executeChannelStrategy` invocation. -/
def runStep (st : CoordinatorState) (i : StepInput) : CoordinatorState :=
  (executeChannelStrategy st i.gateway i.now i.customer i.document i.channel i.flow
    i.context).2.1

def runSteps (st : CoordinatorState) (steps : List StepInput) : CoordinatorState :=
  steps.foldl runStep st

theorem escalation_nonempty_runStep (st : CoordinatorState) (i : StepInput) (cid : String)
    (h : st.escalationHistory cid ≠ []) : (runStep st i).escalationHistory cid ≠ [] := by
  unfold runStep executeChannelStrategy
  by_cases hAct : st.escalationHistory i.customer.id = []
  · rw [if_pos hAct]
    cases hfr : firedRule i.flow.escalationRules i.context with
    | some rule =>
      simp only [handleEscalation]
      by_cases hc : cid = i.customer.id
      · subst hc
        exact absurd hAct h
      · simpa [hc] using h
    | none =>
      simp only [trackResponse, updateChannelEffectiveness]
      exact h
  · rw [if_neg hAct]
    exact h

theorem escalation_nonempty_runSteps (st : CoordinatorState) (steps : List StepInput)
    (cid : String) (h : st.escalationHistory cid ≠ []) :
    (runSteps st steps).escalationHistory cid ≠ [] := by
  induction steps generalizing st with
  | nil => exact h
  | cons i rest ih => exact ih (runStep st i) (escalation_nonempty_runStep st i cid h)



/-! ## Concrete inputs for witnesses and counterexamples -/

/-- A deterministic stand-in for the randomized delivery gateway. -/
def gwW : String → SendResponse := fun _ => { success := true, time := 1, sentiment := 0 }

def custW : Customer := { id := "c1" }

def custOther : Customer := { id := "c2" }

def docPast : CustomerDocument :=
  { id := "d0", due_date := some 0, type := "Other", reminder_count := 0 }

def docFar : CustomerDocument :=
  { id := "d1", due_date := some 1000000000000, type := "Legal", reminder_count := 0 }

/-- A coordinator state in which customer `c1` has one open escalation. -/
def stEsc : CoordinatorState :=
  { initialState with
    escalationHistory := fun cid => if cid = "c1" then ["urgent_escalation_99"] else [] }

def ctxPlain : EscalationContext :=
  { customer := custW, document := docFar, attempts := 0, lastResponse := none,
    urgencyScore := 1/2, engagementScore := 1/2, channelEffectiveness := [] }

def stepOther : StepInput :=
  { gateway := gwW, now := 3, customer := custOther, document := docFar,
    channel := emailChannel, flow := defaultFlow 3,
    context := { ctxPlain with customer := custOther } }

def resultOf (e : Except String (OrchestrationResult × CoordinatorState × Nat)) :
    Option OrchestrationResult :=
  match e with
  | .ok r => some r.1
  | .error _ => none

theorem selectOptimalChannel_cons (st : CoordinatorState) (context : EscalationContext)
    (c : ChannelConfig) (cs : List ChannelConfig) (flow : CommunicationFlow)
    (hch : flow.channels = c :: cs) :
    ∃ ch, selectOptimalChannel st context flow = some ch := by
  unfold selectOptimalChannel
  rw [hch]
  exact ⟨_, rfl⟩

/-- **C1**: with an open escalation recorded for the customer, every orchestration
call — now and after arbitrarily many further orchestration steps — returns the
`escalated` status carrying the open escalation ids, leaves the state unchanged,
and never invokes the delivery gateway; `initiateFlow` forwards the same result. -/
theorem c1_open_escalations_short_circuit (st : CoordinatorState) (customer : Customer)
    (h : st.escalationHistory customer.id ≠ []) (steps : List StepInput)
    (gateway : String → SendResponse) (now : Int) (document : CustomerDocument)
    (channel : ChannelConfig) (flow : CommunicationFlow) (context : EscalationContext) :
    executeChannelStrategy (runSteps st steps) gateway now customer document channel flow
        context =
      (.escalated ((runSteps st steps).escalationHistory customer.id), runSteps st steps, 0) ∧
    (runSteps st steps).escalationHistory customer.id ≠ [] ∧
    (∀ (flows : List (String × CommunicationFlow)) (flowType name : String)
        (flow' : CommunicationFlow),
      flows.find? (fun p => p.1 = flowType) = some (name, flow') →
      flow'.channels ≠ [] →
      initiateFlow (runSteps st steps) gateway now flows customer document flowType =
        .ok (.escalated ((runSteps st steps).escalationHistory customer.id),
          runSteps st steps, 0)) := by
  have hne := escalation_nonempty_runSteps st steps customer.id h
  have hexec : ∀ (ch : ChannelConfig) (fl : CommunicationFlow) (ctx : EscalationContext),
      executeChannelStrategy (runSteps st steps) gateway now customer document ch fl ctx =
        (.escalated ((runSteps st steps).escalationHistory customer.id),
          runSteps st steps, 0) := by
    intro ch fl ctx
    unfold executeChannelStrategy
    rw [if_neg hne]
  refine ⟨hexec channel flow context, hne, ?_⟩
  intro flows flowType name flow' hfind hch
  unfold initiateFlow
  rw [hfind]
  dsimp only
  cases hcc : flow'.channels with
  | nil => exact absurd hcc hch
  | cons c cs =>
    obtain ⟨ch, hsel⟩ := selectOptimalChannel_cons (runSteps st steps)
      (buildEscalationContext (runSteps st steps) customer document
        (getCustomerHistory (runSteps st steps) customer.id)) c cs flow' hcc
    rw [hsel]
    dsimp only
    rw [hexec ch flow' (buildEscalationContext (runSteps st steps) customer document
      (getCustomerHistory (runSteps st steps) customer.id))]

/-- Witness for C1 at a concrete state: customer `c1` has the open escalation
`urgent_escalation_99`; after one unrelated orchestration step for customer `c2`,
a call for `c1` still short-circuits to `escalated` with zero gateway invocations. -/
theorem c1_witness :
    stEsc.escalationHistory custW.id ≠ [] ∧
    executeChannelStrategy (runSteps stEsc [stepOther]) gwW 7 custW docFar emailChannel
        (defaultFlow 7) ctxPlain =
      (.escalated ((runSteps stEsc [stepOther]).escalationHistory custW.id),
        runSteps stEsc [stepOther], 0) := by
  have h : stEsc.escalationHistory custW.id ≠ [] := by simp [stEsc, custW]
  exact ⟨h, (c1_open_escalations_short_circuit stEsc custW h [stepOther] gwW 7 docFar
    emailChannel (defaultFlow 7) ctxPlain).1⟩



def ruleManagerP1 : EscalationRule :=
  { condition := fun _ => true, action := "escalate_to_manager", priority := 1,
    cooldown := none, requiredApproval := true }

def ruleUrgentP3 : EscalationRule :=
  { condition := fun _ => true, action := "urgent_escalation", priority := 3,
    cooldown := none, requiredApproval := false }

/-- A flow whose two rules are both true on every context, listed with the
priority-3 rule first to exercise the sort. -/
def flowTwoRules : CommunicationFlow :=
  { channels := defaultChannels, maxAttempts := 5,
    escalationRules := [ruleUrgentP3, ruleManagerP1],
    autoAdjustment := { enabled := true, factors := [], learningRate := 1/10 } }

/-- **C2**: with no open escalations and some matching rule, the orchestrator
dispatches exactly the first-listed matching rule of minimal priority number — a
single rule, with no send (gateway count 0) — where `specFiredRule` is the spec's
"first match in ascending priority order" selector. -/
theorem c2_first_matching_rule_by_priority (st : CoordinatorState)
    (gateway : String → SendResponse) (now : Int) (customer : Customer)
    (document : CustomerDocument) (channel : ChannelConfig) (flow : CommunicationFlow)
    (context : EscalationContext) (rule : EscalationRule)
    (hEsc : st.escalationHistory customer.id = [])
    (hRule : specFiredRule flow.escalationRules context = some rule) :
    executeChannelStrategy st gateway now customer document channel flow context =
      (.escalationAction (escalationStatus rule.action) context,
        (handleEscalation st now rule customer context).2, 0) ∧
    rule.condition context = true ∧
    rule ∈ flow.escalationRules ∧
    (∀ r' ∈ flow.escalationRules, r'.condition context = true →
      rule.priority ≤ r'.priority) := by
  have hfired : firedRule flow.escalationRules context = some rule :=
    (firedRule_eq_spec flow.escalationRules context).trans hRule
  constructor
  · unfold executeChannelStrategy
    rw [if_pos hEsc, hfired]
    rfl
  · dsimp only [specFiredRule] at hRule
    have hmem := List.mem_of_find?_eq_some hRule
    have hpred := List.find?_some hRule
    rw [List.mem_filter] at hmem
    obtain ⟨hmemRules, hcond⟩ := hmem
    refine ⟨hcond, hmemRules, ?_⟩
    intro r' hr' hcr'
    have hr'mem : r' ∈ flow.escalationRules.filter (fun r => r.condition context) :=
      List.mem_filter.mpr ⟨hr', hcr'⟩
    rw [List.all_eq_true] at hpred
    simpa using hpred r' hr'mem

/-- Witness for C2: two rules that are simultaneously true, at priorities 3 and 1
(listed in that order); the dispatched action is the priority-1 rule's
`escalate_to_manager`, handled as `escalated_to_manager`. -/
theorem c2_witness :
    (executeChannelStrategy initialState gwW 7 custW docFar emailChannel flowTwoRules
        ctxPlain).1 = .escalationAction "escalated_to_manager" ctxPlain ∧
    ruleManagerP1.priority = 1 ∧ ruleUrgentP3.priority = 3 ∧
    ruleManagerP1.condition ctxPlain = true ∧ ruleUrgentP3.condition ctxPlain = true := by
  have h := c2_first_matching_rule_by_priority initialState gwW 7 custW docFar emailChannel
    flowTwoRules ctxPlain ruleManagerP1 rfl rfl
  refine ⟨?_, rfl, rfl, rfl, rfl⟩
  rw [h.1]
  simp [escalationStatus, ruleManagerP1]



/-- The context `initiateFlow` builds for a fresh customer (empty history, empty
effectiveness record). -/
def ctxFresh : EscalationContext := buildEscalationContext initialState custW docFar []

/-- **C3 (counterexample)**: for a fresh customer the default flow fires rule 5,
whose action tag `try_alternative_channel` is not in `handleEscalation`'s switch;
the call is NOT rejected — it returns an ok `default_escalation` result via the
default handler. -/
theorem c3_counterexample :
    (firedRule (defaultFlow 1000).escalationRules ctxFresh).map (fun r => r.action) =
      some "try_alternative_channel" ∧
    "try_alternative_channel" ∉ knownActionTags ∧
    resultOf (initiateFlow initialState gwW 1000 (defaultFlows 1000) custW docFar "default") =
      some (.escalationAction "default_escalation" ctxFresh) := by
  refine ⟨?_, by decide, ?_⟩
  · norm_num [firedRule, defaultFlow, defaultEscalationRules, ctxFresh,
      buildEscalationContext, calculateUrgencyScore, calculateEngagementScore,
      getChannelEffectiveness, initialState, custW, docFar, pickFirst]
  · norm_num [initiateFlow, getCustomerHistory, initialState, buildEscalationContext,
      calculateUrgencyScore, calculateEngagementScore, getChannelEffectiveness,
      selectOptimalChannel, calculateChannelScore, getChannelHistory, jsOr, mapGet,
      pickFirst, defaultFlows, defaultFlow, defaultChannels, defaultEscalationRules,
      emailChannel, whatsappChannel, phoneChannel, smsChannel, portalChannel,
      executeChannelStrategy, firedRule, handleEscalation, escalationStatus, setAdd,
      resultOf, ctxFresh, docFar, custW, gwW]
    decide

theorem escalationStatus_of_not_known {action : String} (h : action ∉ knownActionTags) :
    escalationStatus action = "default_escalation" := by
  simp only [knownActionTags, List.mem_cons, List.not_mem_nil, or_false, not_or] at h
  obtain ⟨h1, h2, h3, h4⟩ := h
  simp [escalationStatus, h1, h2, h3, h4]

/-- **C3 (amended)**: an unknown flow-type name is rejected with an error, but an
unknown escalation-action tag is not: `handleEscalation` routes it to the default
handler, which returns an ok `default_escalation` result. -/
theorem c3_unknown_flow_errors_unknown_action_defaults :
    (∀ (st : CoordinatorState) (gateway : String → SendResponse) (now : Int)
        (flows : List (String × CommunicationFlow)) (customer : Customer)
        (document : CustomerDocument) (flowType : String),
      flows.find? (fun p => p.1 = flowType) = none →
      initiateFlow st gateway now flows customer document flowType =
        .error ("Flow type " ++ flowType ++ " not found")) ∧
    (∀ action, action ∉ knownActionTags →
      escalationStatus action = "default_escalation") ∧
    (∀ (st : CoordinatorState) (now : Int) (rule : EscalationRule) (customer : Customer)
        (context : EscalationContext), rule.action ∉ knownActionTags →
      (handleEscalation st now rule customer context).1 =
        .escalationAction "default_escalation" context) := by
  refine ⟨?_, fun a h => escalationStatus_of_not_known h, ?_⟩
  · intro st gw now flows c d ft h
    unfold initiateFlow
    rw [h]
  · intro st now rule c ctx h
    unfold handleEscalation
    dsimp only
    rw [escalationStatus_of_not_known h]

/-- Witness for C3 (amended) at concrete inputs. -/
theorem c3_amended_witness :
    initiateFlow initialState gwW 0 (defaultFlows 0) custW docFar "bogus" =
      .error "Flow type bogus not found" ∧
    escalationStatus "try_alternative_channel" = "default_escalation" ∧
    (handleEscalation initialState 0
        { condition := fun _ => true, action := "try_alternative_channel", priority := 5,
          cooldown := none, requiredApproval := false } custW ctxPlain).1 =
      .escalationAction "default_escalation" ctxPlain := by
  have h := c3_unknown_flow_errors_unknown_action_defaults
  exact ⟨h.1 initialState gwW 0 (defaultFlows 0) custW docFar "bogus" rfl,
    h.2.1 "try_alternative_channel" (by decide),
    h.2.2 initialState 0 _ custW ctxPlain (by decide)⟩

/-- **C5 (counterexample)**: the orchestrator's urgency score for a past-due
document is the stub value 0.5, not 100. -/
theorem c5_counterexample :
    docPast.due_date = some 0 ∧ ((0 : Int) < 1000) ∧
    calculateUrgencyScore docPast = 1/2 ∧
    (buildEscalationContext initialState custW docPast []).urgencyScore = 1/2 ∧
    ((1 : ℚ)/2) ≠ 100 :=
  ⟨rfl, by norm_num, rfl, rfl, by norm_num⟩

/-- **C5 (amended)**: the orchestrator's own `calculateUrgencyScore` ignores the
document and returns 0.5; the spec's bucket formula is implemented only in
`smartMessaging.ts`, whose scorer does return 100 for every past-due document. -/
theorem c5_urgency_stub_and_bucket_formula :
    (∀ d : CustomerDocument, calculateUrgencyScore d = 1/2) ∧
    (∀ (now t : Int) (d : CustomerDocument), d.due_date = some t → t < now →
      SmartMessaging.calculateUrgencyScore now d = 100) := by
  refine ⟨fun d => rfl, ?_⟩
  intro now t d hd hlt
  unfold SmartMessaging.calculateUrgencyScore
  rw [hd]
  dsimp only
  have hneg : (t - now).fdiv 86400000 < 0 := by
    rw [Int.fdiv_eq_ediv _ (by norm_num)]
    exact Int.ediv_neg' (by omega) (by norm_num)
  rw [if_pos hneg]
  have h1 : (0:ℚ) ≤ if d.type = "Legal" then 20 else 0 := by split <;> norm_num
  have h2 : (0:ℚ) ≤ if d.type = "Financial" then 15 else 0 := by split <;> norm_num
  have h3 : (0:ℚ) ≤ if d.reminder_count ≠ 0 then min 20 ((d.reminder_count : ℚ) * 5) else 0 := by
    split
    · exact le_min (by norm_num) (by positivity)
    · exact le_refl 0
  exact min_eq_left (by linarith)

/-- Witness for C5 (amended) at a concrete past-due document. -/
theorem c5_witness :
    calculateUrgencyScore docPast = 1/2 ∧
    SmartMessaging.calculateUrgencyScore 1000 docPast = 100 :=
  ⟨c5_urgency_stub_and_bucket_formula.1 docPast,
    c5_urgency_stub_and_bucket_formula.2 1000 0 docPast rfl (by norm_num)⟩



def chAlpha : ChannelConfig :=
  { type := "alpha", priority := 1, waitTime := 1, templates := [], fallbackChannel := none,
    thresholds := { urgency := 10, sentiment := 10, engagement := 10 } }

def chBeta : ChannelConfig :=
  { type := "beta", priority := 1, waitTime := 1, templates := [], fallbackChannel := none,
    thresholds := { urgency := 10, sentiment := 10, engagement := 10 } }

/-- A two-channel flow whose thresholds are unreachably high, so every base score
component is 0 and only the effectiveness bonus differentiates the channels. -/
def flowAB : CommunicationFlow :=
  { channels := [chAlpha, chBeta], maxAttempts := 5, escalationRules := [],
    autoAdjustment := { enabled := false, factors := [], learningRate := 1/10 } }

/-- A context whose effectiveness record stores 0.1 for `alpha` and nothing for
`beta`. -/
def ctxEff : EscalationContext :=
  { customer := custW, document := docFar, attempts := 0, lastResponse := none,
    urgencyScore := 1/2, engagementScore := 1/2, channelEffectiveness := [("alpha", 1/10)] }

/-- **C4 (counterexample)**: with `alpha` stored at 0.1 and `beta` absent, the code
(missing value scored as 0) picks `alpha`, while the claim's 0.5 default would pick
`beta`. -/
theorem c4_counterexample :
    selectOptimalChannel initialState ctxEff flowAB = some chAlpha ∧
    specSelectOptimalChannel initialState ctxEff flowAB = some chBeta ∧
    selectOptimalChannel initialState ctxEff flowAB ≠
      specSelectOptimalChannel initialState ctxEff flowAB := by
  have hmA : mapGet "alpha" [("alpha", (1:ℚ)/10)] = some (1/10) := rfl
  have hmB : mapGet "beta" [("alpha", (1:ℚ)/10)] = none := rfl
  have h1 : selectOptimalChannel initialState ctxEff flowAB = some chAlpha := by
    norm_num [selectOptimalChannel, calculateChannelScore, getChannelHistory,
      initialState, ctxEff, flowAB, chAlpha, chBeta, custW, jsOr, hmA, hmB, pickFirst]
  have h2 : specSelectOptimalChannel initialState ctxEff flowAB = some chBeta := by
    norm_num [specSelectOptimalChannel, specChannelScore, getChannelHistory,
      initialState, ctxEff, flowAB, chAlpha, chBeta, custW, hmA, hmB, List.find?, List.all]
  refine ⟨h1, h2, ?_⟩
  rw [h1, h2]
  intro hc
  exact absurd (congrArg ChannelConfig.type (Option.some.inj hc)) (by decide)

/-- **C4 (amended)**: `selectOptimalChannel` returns the first catalog channel of
maximal score (ties broken by catalog order), where the score is the four base
components plus the stored effectiveness value defaulting to 0 — not 0.5 — when no
value is stored (`codeSelectSpec`/`codeChannelScore`). -/
theorem c4_selection_first_max_zero_default (st : CoordinatorState)
    (context : EscalationContext) (flow : CommunicationFlow) :
    selectOptimalChannel st context flow = codeSelectSpec st context flow :=
  selectOptimalChannel_eq_spec st context flow

/-- Five attempts: four successes, each with observed sentiment 0.6 and a stored
per-attempt engagement score of 0.3. -/
def histC6 : List ResponseMetrics :=
  [ { channel := "email", responseTime := 1, sentiment := 3/5, wasSuccessful := true,
      engagementScore := 3/10, followUpRequired := false },
    { channel := "email", responseTime := 1, sentiment := 3/5, wasSuccessful := true,
      engagementScore := 3/10, followUpRequired := false },
    { channel := "email", responseTime := 1, sentiment := 3/5, wasSuccessful := true,
      engagementScore := 3/10, followUpRequired := false },
    { channel := "email", responseTime := 1, sentiment := 3/5, wasSuccessful := true,
      engagementScore := 3/10, followUpRequired := false },
    { channel := "email", responseTime := 1, sentiment := 3/5, wasSuccessful := false,
      engagementScore := 3/10, followUpRequired := true } ]

theorem histC6_ne_nil : histC6 ≠ [] := by decide

/-- **C6 (counterexample)**: on the claim's scenario history (5 attempts, 4
successes, average sentiment 0.6) the spec formula gives 0.72, but the code — which
averages the stored per-attempt engagement scores — returns 0.3. -/
theorem c6_counterexample :
    specEngagementScore histC6 = 18/25 ∧
    ((18 : ℚ)/25) = 72/100 ∧
    calculateEngagementScore custW histC6 = 3/10 ∧
    calculateEngagementScore custW histC6 ≠ specEngagementScore histC6 := by
  have hne := histC6_ne_nil
  have h1 : specEngagementScore histC6 = 18/25 := by
    rw [specEngagementScore, if_neg hne]
    norm_num [histC6]
  have h2 : calculateEngagementScore custW histC6 = 3/10 := by
    rw [calculateEngagementScore, if_neg hne]
    norm_num [histC6]
  refine ⟨h1, by norm_num, h2, ?_⟩
  rw [h1, h2]
  norm_num

theorem foldl_add_engagement (l : List ResponseMetrics) (a : ℚ) :
    l.foldl (fun score metrics => score + metrics.engagementScore) a =
      a + (l.map (fun m => m.engagementScore)).sum := by
  induction l generalizing a with
  | nil => simp
  | cons x xs ih => simp [ih, add_assoc]

/-- **C6 (amended)**: the engagement score is 0.5 on empty history and otherwise
the arithmetic mean of the stored per-attempt `engagementScore` values over the
last five attempts; the response-rate/sentiment formula is not what the
coordinator computes (on the scenario history it returns 0.3, not 0.72). -/
theorem c6_engagement_is_mean_of_stored_scores :
    (∀ customer : Customer, calculateEngagementScore customer [] = 1/2) ∧
    (∀ (customer : Customer) (history : List ResponseMetrics), history ≠ [] →
      calculateEngagementScore customer history =
        ((history.drop (history.length - 5)).map (fun m => m.engagementScore)).sum /
          ((history.drop (history.length - 5)).length : ℚ)) ∧
    calculateEngagementScore custW histC6 = 3/10 := by
  have hmean : ∀ (customer : Customer) (history : List ResponseMetrics), history ≠ [] →
      calculateEngagementScore customer history =
        ((history.drop (history.length - 5)).map (fun m => m.engagementScore)).sum /
          ((history.drop (history.length - 5)).length : ℚ) := by
    intro c history h
    rw [calculateEngagementScore, if_neg h]
    dsimp only
    rw [foldl_add_engagement, zero_add]
  refine ⟨fun c => rfl, hmean, ?_⟩
  rw [hmean custW histC6 histC6_ne_nil]
  norm_num [histC6]

/-- Witness for C6 (amended) on the scenario history. -/
theorem c6_witness :
    histC6 ≠ [] ∧
    calculateEngagementScore custW histC6 =
      ((histC6.drop (histC6.length - 5)).map (fun m => m.engagementScore)).sum /
        ((histC6.drop (histC6.length - 5)).length : ℚ) :=
  ⟨by decide, c6_engagement_is_mean_of_stored_scores.2.1 custW histC6 (by decide)⟩



/-- A sequence of effectiveness updates `(customerId, channelType, adjustment)`
applied to the fresh coordinator state. -/
def applyEffectivenessUpdates (updates : List (String × String × ℚ)) : CoordinatorState :=
  updates.foldl (fun st u => updateChannelEffectiveness st u.1 u.2.1 u.2.2) initialState

theorem effectivenessInv_foldl (updates : List (String × String × ℚ))
    (st : CoordinatorState) (h : effectivenessInv st) :
    effectivenessInv
      (updates.foldl (fun s u => updateChannelEffectiveness s u.1 u.2.1 u.2.2) st) := by
  induction updates generalizing st with
  | nil => exact h
  | cons u rest ih => exact ih _ (effectivenessInv_update h u.1 u.2.1 u.2.2)

/-- **C7**: every value the effectiveness store holds lies in [0,1]: a single
update writes a clamped value regardless of the starting state, a fresh key reads
as 0.5 before the adjustment is applied, and after arbitrarily many updates from
the initial state every stored value is still in [0,1]. -/
theorem c7_effectiveness_in_unit_interval :
    (∀ (st : CoordinatorState) (customerId channelType : String) (adjustment v : ℚ),
      mapGet channelType
          ((updateChannelEffectiveness st customerId channelType
            adjustment).channelEffectiveness customerId) = some v →
      0 ≤ v ∧ v ≤ 1) ∧
    (∀ (updates : List (String × String × ℚ)) (customerId channelType : String) (v : ℚ),
      mapGet channelType
          ((applyEffectivenessUpdates updates).channelEffectiveness customerId) = some v →
      0 ≤ v ∧ v ≤ 1) ∧
    (∀ (st : CoordinatorState) (customerId channelType : String) (adjustment : ℚ),
      mapGet channelType (st.channelEffectiveness customerId) = none →
      mapGet channelType
          ((updateChannelEffectiveness st customerId channelType
            adjustment).channelEffectiveness customerId) =
        some (max 0 (min 1 (1/2 + adjustment)))) := by
  refine ⟨?_, ?_, ?_⟩
  · intro st cid ch adj v hv
    unfold updateChannelEffectiveness at hv
    simp only [eq_self_iff_true, if_true] at hv
    rw [mapGet_mapSet_self] at hv
    cases hv
    exact clamp_mem_unit _
  · intro updates cid ch v hv
    exact effectivenessInv_foldl updates initialState effectivenessInv_initial cid ch v hv
  · intro st cid ch adj hnone
    unfold updateChannelEffectiveness
    simp only [eq_self_iff_true, if_true]
    rw [mapGet_mapSet_self, hnone]
    rfl

/-- Witness for C7: one +9 adjustment on a fresh key clamps to exactly 1, which is
in [0,1]. -/
theorem c7_witness :
    mapGet "email"
        ((applyEffectivenessUpdates [("c1", "email", 9)]).channelEffectiveness "c1") =
      some 1 ∧ ((0:ℚ) ≤ 1 ∧ (1:ℚ) ≤ 1) := by
  have hval : mapGet "email"
      ((applyEffectivenessUpdates [("c1", "email", 9)]).channelEffectiveness "c1") =
      some 1 := by
    norm_num [applyEffectivenessUpdates, updateChannelEffectiveness, initialState, jsOr,
      mapGet, mapSet]
  exact ⟨hval, c7_effectiveness_in_unit_interval.2.1 [("c1", "email", 9)] "c1" "email" 1 hval⟩

/-- **C8**: after a failed attempt the next channel is the configured fallback when
it exists in the catalog; otherwise the catalog-order successor of the failed
channel, wrapping to the first catalog entry when the failed channel is last. -/
theorem c8_next_channel_fallback_else_order (flow : CommunicationFlow)
    (currentChannel : ChannelConfig) :
    (∀ fb cfg, currentChannel.fallbackChannel = some fb →
      flow.channels.find? (fun c => c.type = fb) = some cfg →
      determineNextChannel flow currentChannel = some cfg) ∧
    (∀ i, currentChannel.fallbackChannel.bind
        (fun fb => flow.channels.find? (fun c => c.type = fb)) = none →
      flow.channels.findIdx? (fun c => c.type = currentChannel.type) = some i →
      ((i + 1 < flow.channels.length →
        determineNextChannel flow currentChannel = flow.channels.get? (i + 1)) ∧
      (i + 1 = flow.channels.length →
        determineNextChannel flow currentChannel = flow.channels.head?))) := by
  constructor
  · intro fb cfg hfb hfind
    unfold determineNextChannel
    rw [hfb]
    dsimp only
    rw [hfind]
  · intro i hnofb hidx
    have hnext : determineNextChannel flow currentChannel = nextByOrder flow currentChannel := by
      unfold determineNextChannel
      cases hfb : currentChannel.fallbackChannel with
      | none => rfl
      | some fb =>
        rw [hfb] at hnofb
        simp only [Option.some_bind] at hnofb
        dsimp only
        rw [hnofb]
    rw [hnext]
    unfold nextByOrder
    rw [hidx]
    dsimp only
    have htoNat : ((i : Int) + 1).toNat = i + 1 := by omega
    rw [htoNat]
    constructor
    · intro hlt
      cases hget : flow.channels.get? (i + 1) with
      | some c => rfl
      | none =>
        exfalso
        have := List.get?_eq_none.mp hget
        omega
    · intro heq
      have hnone : flow.channels.get? (i + 1) = none := List.get?_eq_none.mpr (by omega)
      rw [hnone]

/-- Witness for C8 on the default catalog: whatsapp's configured fallback `sms`
wins over the catalog successor `phone`, and last-listed `portal` (no fallback)
wraps to the first entry `email`. -/
theorem c8_witness :
    whatsappChannel.fallbackChannel = some "sms" ∧
    determineNextChannel (defaultFlow 0) whatsappChannel = some smsChannel ∧
    smsChannel ≠ phoneChannel ∧
    (defaultFlow 0).channels.get? 2 = some phoneChannel ∧
    portalChannel.fallbackChannel = none ∧
    determineNextChannel (defaultFlow 0) portalChannel = some emailChannel := by
  have h1 := (c8_next_channel_fallback_else_order (defaultFlow 0) whatsappChannel).1
    "sms" smsChannel rfl rfl
  have h2 := ((c8_next_channel_fallback_else_order (defaultFlow 0) portalChannel).2
    4 rfl rfl).2 rfl
  refine ⟨rfl, h1, ?_, rfl, rfl, ?_⟩
  · intro h
    exact absurd (congrArg ChannelConfig.type h) (by decide)
  · rw [h2]
    rfl

/-- **C9**: the follow-up wait time is
`max(baseWaitTime × max(0, 1 − urgency) × max(0.5, engagement), baseWaitTime × 0.25)`
hours, with `baseWaitTime` the channel's configured wait time. -/
theorem c9_wait_time_formula (channel : ChannelConfig) (customer : Customer)
    (context : EscalationContext) :
    calculateWaitTime channel customer context =
      max (channel.waitTime * max 0 (1 - context.urgencyScore) *
          max (1/2) context.engagementScore)
        (channel.waitTime * (1/4)) := rfl

/-- **C10**: `maxAttempts` is never enforced — the result of
`executeChannelStrategy` is invariant under changing `maxAttempts`, and whenever
there are no open escalations and no escalation rule matches, the orchestrator
composes and sends regardless of the attempt count, in particular when
`maxAttempts ≤ attempts`. -/
theorem c10_maxAttempts_never_enforced (st : CoordinatorState)
    (gateway : String → SendResponse) (now : Int) (customer : Customer)
    (document : CustomerDocument) (channel : ChannelConfig) (flow : CommunicationFlow)
    (context : EscalationContext)
    (hEsc : st.escalationHistory customer.id = [])
    (hRules : ∀ r ∈ flow.escalationRules, r.condition context = false)
    (hAtt : flow.maxAttempts ≤ context.attempts) :
    (∀ (st' : CoordinatorState) (gw' : String → SendResponse) (now' : Int) (c' : Customer)
        (d' : CustomerDocument) (ch' : ChannelConfig) (fl : CommunicationFlow)
        (ctx' : EscalationContext) (n : Nat),
      executeChannelStrategy st' gw' now' c' d' ch' { fl with maxAttempts := n } ctx' =
        executeChannelStrategy st' gw' now' c' d' ch' fl ctx') ∧
    executeChannelStrategy st gateway now customer document channel flow context =
      (.delivery (gateway channel.type),
        updateChannelEffectiveness
          (trackResponse st customer.id
            { channel := channel.type, responseTime := (gateway channel.type).time,
              sentiment := (gateway channel.type).sentiment,
              wasSuccessful := (gateway channel.type).success,
              engagementScore := context.engagementScore,
              followUpRequired := !(gateway channel.type).success })
          customer.id channel.type
          (if (gateway channel.type).success then 1/10 else -(1/10)), 1) := by
  constructor
  · intro st' gw' now' c' d' ch' fl ctx' n
    rfl
  · have hfr : firedRule flow.escalationRules context = none := by
      unfold firedRule
      have hfil : flow.escalationRules.filter (fun r => r.condition context) = [] := by
        rw [List.filter_eq_nil_iff]
        intro a ha
        simp [hRules a ha]
      rw [hfil]
    unfold executeChannelStrategy
    rw [if_pos hEsc, hfr]

/-- A context with five prior attempts (the default flow's `maxAttempts`) on which
no default-flow rule matches. -/
def ctxC10 : EscalationContext :=
  { customer := custW, document := docFar, attempts := 5, lastResponse := none,
    urgencyScore := 1/2, engagementScore := 1/2, channelEffectiveness := [("email", 1/2)] }

/-- Witness for C10: five prior attempts equal the default flow's `maxAttempts`,
yet the call still delivers (exactly one gateway invocation). -/
theorem c10_witness :
    (defaultFlow 0).maxAttempts = 5 ∧ ctxC10.attempts = 5 ∧
    (executeChannelStrategy initialState gwW 0 custW docFar emailChannel (defaultFlow 0)
        ctxC10).1 = .delivery (gwW "email") ∧
    (executeChannelStrategy initialState gwW 0 custW docFar emailChannel (defaultFlow 0)
        ctxC10).2.2 = 1 := by
  have hRules : ∀ r ∈ (defaultFlow 0).escalationRules, r.condition ctxC10 = false := by
    norm_num [defaultFlow, defaultEscalationRules, ctxC10, docFar]
  have h := c10_maxAttempts_never_enforced initialState gwW 0 custW docFar emailChannel
    (defaultFlow 0) ctxC10 rfl hRules (by decide)
  refine ⟨rfl, rfl, ?_, ?_⟩
  · rw [h.2]
    rfl
  · rw [h.2]

end DocFlow
